import Mathlib

/-!
Verification development for the Comfort Sync AI in-cabin comfort controller.

The Python modules under `src/rpi_hardware/` are shallowly embedded here:
pure computations become Lean functions over `ℚ` (Python floats) and `ℤ`
(Python ints), mutable objects become explicit state records with functional
updates, and wall-clock time is passed in as an explicit `now : ℚ` argument.
-/

namespace ComfortSync

/-- Python `int()` applied to a float/rational: truncation toward zero
(the ceiling for negatives, the floor for nonnegatives). -/
def pyInt (q : ℚ) : ℤ := if q < 0 then ⌈q⌉ else ⌊q⌋

/-- Python `max(iterable, key=f)` on a non-empty iterable `x :: xs`:
the fold keeps the current best on ties, so the FIRST element attaining
the maximal key wins. -/
def pyMax (f : α → ℤ) (x : α) (xs : List α) : α :=
  xs.foldl (fun b a => if f b < f a then a else b) x

/-- `np.mean` of a list of rationals. -/
def listMean (l : List ℚ) : ℚ := l.sum / (l.length : ℚ)

/-! ## main_controller.py — `MainController.calculate_discomfort_score`

The threshold table from `MainController.__init__` and the additive
per-factor scoring of `calculate_discomfort_score` (lines 124-189).
The issue strings produced by the Python f-strings are abstracted as an
inductive `Issue` carrying the measured value. -/

/-- `self.thresholds` from `MainController.__init__`. -/
structure Thresholds where
  temp_min : ℚ
  temp_max : ℚ
  temp_critical_min : ℚ
  temp_critical_max : ℚ
  hum_min : ℚ
  hum_max : ℚ
  hum_critical_min : ℚ
  hum_critical_max : ℚ
  air_good : ℚ
  air_moderate : ℚ
  air_bad : ℚ
  stress_low : ℚ
  stress_moderate : ℚ
  stress_high : ℚ
  hr_normal : ℚ
  hr_elevated : ℚ
  hr_high : ℚ
deriving DecidableEq

/-- The concrete threshold values assigned in `MainController.__init__`. -/
def defaultThresholds : Thresholds :=
  { temp_min := 20, temp_max := 26, temp_critical_min := 16, temp_critical_max := 30
  , hum_min := 40, hum_max := 60, hum_critical_min := 30, hum_critical_max := 70
  , air_good := 100, air_moderate := 200, air_bad := 300
  , stress_low := 40, stress_moderate := 70, stress_high := 85
  , hr_normal := 85, hr_elevated := 100, hr_high := 115 }

/-- One environment sensor reading (`sensors.read_all()`). -/
structure SensorData where
  temperature : ℚ
  humidity : ℚ
  air_quality : ℚ
deriving DecidableEq

/-- One smartwatch reading (`smartwatch.get_data()`). -/
structure WatchData where
  heart_rate : ℚ
  stress_level : ℚ
deriving DecidableEq

/-- The issue strings appended by `calculate_discomfort_score`, abstracted
as tags carrying the measured value that the f-string interpolates. -/
inductive Issue where
  | criticalTemperature (t : ℚ)
  | uncomfortableTemperature (t : ℚ)
  | criticalHumidity (h : ℚ)
  | suboptimalHumidity (h : ℚ)
  | poorAirQuality (a : ℚ)
  | moderateAirQuality (a : ℚ)
  | veryHighStress (s : ℚ)
  | elevatedStress (s : ℚ)
  | mildStress (s : ℚ)
  | highHeartRate (h : ℚ)
  | elevatedHeartRate (h : ℚ)
  | negativeEmotion (e : String)
deriving DecidableEq

/-- The temperature block of `calculate_discomfort_score`. -/
def check_temperature (th : Thresholds) (temp : ℚ) : ℤ × List Issue :=
  if temp < th.temp_critical_min ∨ temp > th.temp_critical_max then
    (3, [Issue.criticalTemperature temp])
  else if temp < th.temp_min ∨ temp > th.temp_max then
    (2, [Issue.uncomfortableTemperature temp])
  else (0, [])

/-- The humidity block of `calculate_discomfort_score`. -/
def check_humidity (th : Thresholds) (humidity : ℚ) : ℤ × List Issue :=
  if humidity < th.hum_critical_min ∨ humidity > th.hum_critical_max then
    (2, [Issue.criticalHumidity humidity])
  else if humidity < th.hum_min ∨ humidity > th.hum_max then
    (1, [Issue.suboptimalHumidity humidity])
  else (0, [])

/-- The air-quality block of `calculate_discomfort_score`. -/
def check_air_quality (th : Thresholds) (air_quality : ℚ) : ℤ × List Issue :=
  if air_quality > th.air_bad then
    (3, [Issue.poorAirQuality air_quality])
  else if air_quality > th.air_moderate then
    (1, [Issue.moderateAirQuality air_quality])
  else (0, [])

/-- The stress block of `calculate_discomfort_score`. -/
def check_stress (th : Thresholds) (stress : ℚ) : ℤ × List Issue :=
  if stress > th.stress_high then
    (3, [Issue.veryHighStress stress])
  else if stress > th.stress_moderate then
    (2, [Issue.elevatedStress stress])
  else if stress > th.stress_low then
    (1, [Issue.mildStress stress])
  else (0, [])

/-- The heart-rate block of `calculate_discomfort_score`. -/
def check_heart_rate (th : Thresholds) (hr : ℚ) : ℤ × List Issue :=
  if hr > th.hr_high then
    (2, [Issue.highHeartRate hr])
  else if hr > th.hr_elevated then
    (1, [Issue.elevatedHeartRate hr])
  else (0, [])

/-- The emotion block of `calculate_discomfort_score`
(`if self.current_emotion in ['angry', 'fear', 'sad']`). -/
def check_emotion (current_emotion : String) : ℤ × List Issue :=
  if current_emotion ∈ ["angry", "fear", "sad"] then
    (2, [Issue.negativeEmotion current_emotion])
  else (0, [])

/-- `MainController.calculate_discomfort_score`: additive factor scoring,
issues appended in factor order, and the final `min(score, 10)` clamp. -/
def calculate_discomfort_score (th : Thresholds) (sensor_data : SensorData)
    (watch_data : WatchData) (current_emotion : String) : ℤ × List Issue :=
  let t := check_temperature th sensor_data.temperature
  let h := check_humidity th sensor_data.humidity
  let a := check_air_quality th sensor_data.air_quality
  let s := check_stress th watch_data.stress_level
  let r := check_heart_rate th watch_data.heart_rate
  let e := check_emotion current_emotion
  let score := t.1 + h.1 + a.1 + s.1 + r.1 + e.1
  (min score 10, t.2 ++ h.2 ++ a.2 ++ s.2 ++ r.2 ++ e.2)

/-- `MainController.determine_comfort_level` comfort classes. -/
inductive ComfortLevel where
  | comfortable
  | moderate
  | uncomfortable
  | critical
deriving DecidableEq

/-- `MainController.determine_comfort_level`. -/
def determine_comfort_level (discomfort_score : ℤ) : ComfortLevel :=
  if discomfort_score ≥ 7 then ComfortLevel.critical
  else if discomfort_score ≥ 5 then ComfortLevel.uncomfortable
  else if discomfort_score ≥ 3 then ComfortLevel.moderate
  else ComfortLevel.comfortable

lemma check_temperature_nonneg (th : Thresholds) (t : ℚ) :
    0 ≤ (check_temperature th t).1 ∧ (check_temperature th t).1 ≤ 3 := by
  unfold check_temperature; split_ifs <;> simp

lemma check_humidity_nonneg (th : Thresholds) (h : ℚ) :
    0 ≤ (check_humidity th h).1 ∧ (check_humidity th h).1 ≤ 2 := by
  unfold check_humidity; split_ifs <;> simp

lemma check_air_quality_nonneg (th : Thresholds) (a : ℚ) :
    0 ≤ (check_air_quality th a).1 ∧ (check_air_quality th a).1 ≤ 3 := by
  unfold check_air_quality; split_ifs <;> simp

lemma check_stress_nonneg (th : Thresholds) (s : ℚ) :
    0 ≤ (check_stress th s).1 ∧ (check_stress th s).1 ≤ 3 := by
  unfold check_stress; split_ifs <;> simp

lemma check_heart_rate_nonneg (th : Thresholds) (r : ℚ) :
    0 ≤ (check_heart_rate th r).1 ∧ (check_heart_rate th r).1 ≤ 2 := by
  unfold check_heart_rate; split_ifs <;> simp

lemma check_emotion_nonneg (e : String) :
    0 ≤ (check_emotion e).1 ∧ (check_emotion e).1 ≤ 2 := by
  unfold check_emotion; split_ifs <;> simp

/-- Claim C3: for every input sample and every threshold table, the score
returned by `calculate_discomfort_score` lies in `[0, 10]`: every factor
contributes a nonnegative amount (the raw sum is at most 15) and the total
is clamped by `min(score, 10)`. -/
theorem discomfort_score_bounded (th : Thresholds) (sd : SensorData)
    (wd : WatchData) (em : String) :
    0 ≤ (calculate_discomfort_score th sd wd em).1 ∧
      (calculate_discomfort_score th sd wd em).1 ≤ 10 := by
  have ht := check_temperature_nonneg th sd.temperature
  have hh := check_humidity_nonneg th sd.humidity
  have ha := check_air_quality_nonneg th sd.air_quality
  have hs := check_stress_nonneg th wd.stress_level
  have hr := check_heart_rate_nonneg th wd.heart_rate
  have he := check_emotion_nonneg em
  unfold calculate_discomfort_score
  constructor
  · exact le_min (by linarith [ht.1, hh.1, ha.1, hs.1, hr.1, he.1]) (by norm_num)
  · exact min_le_right _ _

/-- Claim C2, counterexample: at temperature exactly 30 (the critical
boundary `critical_max`), with every other factor comfortable, the code
takes the soft band (`30 > 26`), not the critical band (`30 > 30` is
false): the score is 2 with an uncomfortable-temperature issue, not the
claimed 3 with a critical-temperature issue. -/
theorem discomfort_boundary_counterexample :
    (calculate_discomfort_score defaultThresholds
        ⟨30, 50, 50⟩ ⟨70, 30⟩ "neutral").1 = 2 ∧
      (calculate_discomfort_score defaultThresholds
        ⟨30, 50, 50⟩ ⟨70, 30⟩ "neutral").1 ≠ 3 ∧
      (calculate_discomfort_score defaultThresholds
        ⟨30, 50, 50⟩ ⟨70, 30⟩ "neutral").2 =
        [Issue.uncomfortableTemperature 30] := by
  refine ⟨by decide, by decide, by decide⟩

/-- Claim C2 (amended): for a sample whose temperature is exactly at the
critical boundary (30 = `critical_max` or 16 = `critical_min`) and whose
every other field is comfortable, `calculate_discomfort_score` returns
score 2 with a single uncomfortable-temperature issue — the critical band
is strict, so the boundary itself falls in the soft (+2) band. -/
theorem discomfort_boundary_amended (sd : SensorData) (wd : WatchData)
    (em : String)
    (ht : sd.temperature = 30 ∨ sd.temperature = 16)
    (hh1 : 40 ≤ sd.humidity) (hh2 : sd.humidity ≤ 60)
    (ha : sd.air_quality ≤ 100)
    (hs : wd.stress_level ≤ 40)
    (hr : wd.heart_rate ≤ 100)
    (he : em ∉ ["angry", "fear", "sad"]) :
    calculate_discomfort_score defaultThresholds sd wd em =
      (2, [Issue.uncomfortableTemperature sd.temperature]) := by
  have hhum : check_humidity defaultThresholds sd.humidity = (0, []) := by
    simp only [check_humidity, defaultThresholds]
    split_ifs with h1 h2
    · exact absurd h1 (by push_neg; constructor <;> linarith)
    · exact absurd h2 (by push_neg; constructor <;> linarith)
    · rfl
  have hair : check_air_quality defaultThresholds sd.air_quality = (0, []) := by
    simp only [check_air_quality, defaultThresholds]
    split_ifs with h1 h2
    · exact absurd h1 (by push_neg; linarith)
    · exact absurd h2 (by push_neg; linarith)
    · rfl
  have hstr : check_stress defaultThresholds wd.stress_level = (0, []) := by
    simp only [check_stress, defaultThresholds]
    split_ifs with h1 h2 h3
    · exact absurd h1 (by push_neg; linarith)
    · exact absurd h2 (by push_neg; linarith)
    · exact absurd h3 (by push_neg; linarith)
    · rfl
  have hhr : check_heart_rate defaultThresholds wd.heart_rate = (0, []) := by
    simp only [check_heart_rate, defaultThresholds]
    split_ifs with h1 h2
    · exact absurd h1 (by push_neg; linarith)
    · exact absurd h2 (by push_neg; linarith)
    · rfl
  have hemo : check_emotion em = (0, []) := by
    unfold check_emotion
    rw [if_neg he]
  have htemp : check_temperature defaultThresholds sd.temperature =
      (2, [Issue.uncomfortableTemperature sd.temperature]) := by
    rcases ht with h | h <;> rw [h] <;> decide
  unfold calculate_discomfort_score
  rw [htemp, hhum, hair, hstr, hhr, hemo]
  norm_num

/-- Witness for `discomfort_boundary_amended` at a concrete boundary
sample. -/
theorem discomfort_boundary_amended_witness :
    calculate_discomfort_score defaultThresholds
        ⟨16, 55, 80⟩ ⟨95, 35⟩ "happy" =
      (2, [Issue.uncomfortableTemperature 16]) :=
  discomfort_boundary_amended ⟨16, 55, 80⟩ ⟨95, 35⟩ "happy"
    (Or.inr rfl) (by norm_num) (by norm_num) (by norm_num) (by norm_num)
    (by norm_num) (by decide)

/-! ## decision_model.py — `EnvironmentDecisionModel`

The rolling-buffer decision model.  `deque(maxlen=10)` becomes list append
with left eviction, `time.time()` becomes an explicit `now` argument, and
the `decision_scores` dict built by in-place `+=` updates becomes the
per-mode score function `modeScore` (one summand per code factor block).
Python's `max(decision_scores, key=decision_scores.get)` iterates the dict
in insertion order `calming_cool, calming_warm, energizing,
neutral_comfort, deep_relax`, which `winner` mirrors via `pyMax`. -/

/-- An environment decision dict (`environment_map` values and
`current_environment`). -/
structure EnvSettings where
  color_scheme : String
  brightness : ℤ
  audio : String
  volume : ℤ
  description : String
deriving DecidableEq

/-- `deque(maxlen).append`: append right, evict left past capacity. -/
def dequeAppend (maxlen : ℕ) (l : List α) (x : α) : List α :=
  let l' := l ++ [x]
  if maxlen < l'.length then l'.drop (l'.length - maxlen) else l'

/-- State of `EnvironmentDecisionModel` (buffers, current environment,
cooldown bookkeeping). -/
structure DMState where
  temperature_buffer : List ℚ
  humidity_buffer : List ℚ
  air_quality_buffer : List ℚ
  heart_rate_buffer : List ℚ
  stress_buffer : List ℚ
  emotion_buffer : List String
  current_environment : EnvSettings
  last_decision_time : ℚ
  decision_cooldown : ℚ
deriving DecidableEq

/-- `EnvironmentDecisionModel.__init__`: default environment and cooldown. -/
def initialDMState : DMState :=
  { temperature_buffer := [], humidity_buffer := [], air_quality_buffer := []
  , heart_rate_buffer := [], stress_buffer := [], emotion_buffer := []
  , current_environment :=
      { color_scheme := "calming_soft", brightness := 160
      , audio := "ambient_soft", volume := 35
      , description := "Default calming environment (waiting for data)" }
  , last_decision_time := 0, decision_cooldown := 20 }

/-- `EnvironmentDecisionModel.add_data_point`. -/
def add_data_point (s : DMState) (sensor_data : SensorData)
    (watch_data : WatchData) (emotion : String) : DMState :=
  { s with
    temperature_buffer := dequeAppend 10 s.temperature_buffer sensor_data.temperature
    humidity_buffer := dequeAppend 10 s.humidity_buffer sensor_data.humidity
    air_quality_buffer := dequeAppend 10 s.air_quality_buffer sensor_data.air_quality
    heart_rate_buffer := dequeAppend 10 s.heart_rate_buffer watch_data.heart_rate
    stress_buffer := dequeAppend 10 s.stress_buffer watch_data.stress_level
    emotion_buffer := dequeAppend 10 s.emotion_buffer emotion }

/-- Keys of a Python counting dict built by one pass over a list:
first-occurrence order. -/
def dedupKeys (l : List String) : List String :=
  l.foldl (fun acc e => if e ∈ acc then acc else acc ++ [e]) []

/-- `EnvironmentDecisionModel.get_dominant_emotion`: most frequent emotion,
`'neutral'` for an empty buffer; `max(counts, key=counts.get)` keeps the
first key (in insertion order) attaining the maximal count. -/
def get_dominant_emotion (buf : List String) : String :=
  match dedupKeys buf with
  | [] => "neutral"
  | k :: ks => pyMax (fun e => (buf.count e : ℤ)) k ks

/-- `np.mean(buffer) if buffer else 0` from `calculate_averages`. -/
def bufferMean (l : List ℚ) : ℚ := if l = [] then 0 else listMean l

/-- `EnvironmentDecisionModel.calculate_trend`. -/
def calculate_trend (buf : List ℚ) : String :=
  if buf.length < 3 then "stable"
  else
    match buf.drop (buf.length - 3) with
    | a :: b :: c :: _ =>
      let diff := c - (a + b) / 2
      if diff > 5 then "increasing"
      else if diff < -5 then "decreasing"
      else "stable"
    | _ => "stable"

/-- Factor 1 of `make_decision` (stress level). -/
def stress_factor (avg_stress : ℚ) (m : String) : ℤ :=
  if avg_stress > 70 then
    (if m = "deep_relax" then 4 else if m = "calming_cool" then 3 else 0)
  else if avg_stress > 50 then
    (if m = "calming_cool" then 3 else if m = "calming_warm" then 2 else 0)
  else if avg_stress < 30 then
    (if m = "energizing" then 2 else if m = "neutral_comfort" then 3 else 0)
  else (if m = "neutral_comfort" then 3 else 0)

/-- Factor 2 of `make_decision` (dominant emotion). -/
def emotion_factor (emotion m : String) : ℤ :=
  if emotion = "angry" then
    (if m = "calming_cool" then 4 else if m = "deep_relax" then 2 else 0)
  else if emotion = "sad" then
    (if m = "calming_warm" then 4 else if m = "energizing" then 2 else 0)
  else if emotion = "fear" then
    (if m = "calming_warm" then 3 else if m = "deep_relax" then 3 else 0)
  else if emotion = "happy" then
    (if m = "energizing" then 3 else if m = "neutral_comfort" then 2 else 0)
  else (if m = "neutral_comfort" then 2 else 0)

/-- Factor 3 of `make_decision` (temperature). -/
def temp_factor (avg_temp : ℚ) (m : String) : ℤ :=
  if avg_temp > 26 then (if m = "calming_cool" then 3 else 0)
  else if avg_temp < 20 then (if m = "calming_warm" then 3 else 0)
  else 0

/-- Factor 4 of `make_decision` (heart rate). -/
def heart_rate_factor (avg_heart_rate : ℚ) (m : String) : ℤ :=
  if avg_heart_rate > 100 then
    (if m = "deep_relax" then 2 else if m = "calming_cool" then 2 else 0)
  else 0

/-- Factor 5 of `make_decision` (stress trend). -/
def trend_factor (stress_trend m : String) : ℤ :=
  if stress_trend = "increasing" then
    (if m = "deep_relax" then 2 else if m = "calming_cool" then 1 else 0)
  else 0

/-- Total `decision_scores[m]` after the five factor blocks of
`make_decision`. -/
def modeScore (avg_stress : ℚ) (emotion : String) (avg_temp : ℚ)
    (avg_heart_rate : ℚ) (stress_trend : String) (m : String) : ℤ :=
  stress_factor avg_stress m + emotion_factor emotion m +
    temp_factor avg_temp m + heart_rate_factor avg_heart_rate m +
    trend_factor stress_trend m

/-- The `decision_scores` dict insertion order. -/
def modePriority : List String :=
  ["calming_cool", "calming_warm", "energizing", "neutral_comfort", "deep_relax"]

/-- Index of a mode in the dict insertion order. -/
def priorityIndex (m : String) : ℕ := modePriority.indexOf m

/-- `max(decision_scores, key=decision_scores.get)` over the dict in
insertion order. -/
def winner (f : String → ℤ) : String :=
  pyMax f "calming_cool" ["calming_warm", "energizing", "neutral_comfort", "deep_relax"]

/-- The per-mode score of a buffer state: `calculate_averages`, the
dominant emotion, `calculate_trend(self.stress_buffer)`, then the five
factor blocks. -/
def decisionScore (s : DMState) (m : String) : ℤ :=
  modeScore (bufferMean s.stress_buffer) (get_dominant_emotion s.emotion_buffer)
    (bufferMean s.temperature_buffer) (bufferMean s.heart_rate_buffer)
    (calculate_trend s.stress_buffer) m

/-- The static `environment_map` lookup table of `make_decision`. -/
def environment_map : String → Option EnvSettings
  | "calming_cool" => some
      { color_scheme := "calming_blue", brightness := 200
      , audio := "ocean_waves", volume := 50
      , description := "Cool calming environment" }
  | "calming_warm" => some
      { color_scheme := "warming", brightness := 190
      , audio := "fireplace_crackling", volume := 45
      , description := "Warm comforting environment" }
  | "energizing" => some
      { color_scheme := "cabin_evening", brightness := 180
      , audio := "uplifting_ambient", volume := 40
      , description := "Energizing positive environment" }
  | "neutral_comfort" => some
      { color_scheme := "cabin_day", brightness := 140
      , audio := "ambient_soft", volume := 30
      , description := "Neutral comfortable environment" }
  | "deep_relax" => some
      { color_scheme := "calming_soft", brightness := 220
      , audio := "meditation_calm", volume := 55
      , description := "Deep relaxation mode" }
  | _ => none

/-- `EnvironmentDecisionModel.make_decision`, with `time.time()` passed in
as `now`.  Returns the winning mode name alongside the environment dict and
the updated model state.  The two early `return None` gates leave the state
untouched; an accepted decision sets `last_decision_time = now` and
`current_environment` to the decision. -/
def make_decision (s : DMState) (now : ℚ) :
    Option (String × EnvSettings) × DMState :=
  if now - s.last_decision_time < s.decision_cooldown then (none, s)
  else if s.stress_buffer.length < 5 then (none, s)
  else
    let best_decision := winner (decisionScore s)
    match environment_map best_decision with
    | none => (none, s)
    | some env =>
      (some (best_decision, env),
        { s with last_decision_time := now, current_environment := env })

/-- `EnvironmentDecisionModel.get_current_environment`. -/
def get_current_environment (s : DMState) : EnvSettings :=
  s.current_environment

/-- Claim C1: `make_decision` returns `None` and leaves the whole state
(in particular `current_environment` and `last_decision_time`) unchanged
whenever the 20-second cooldown has not elapsed or fewer than 5 samples are
buffered; and after any accepted decision at time `now`, every call within
the following 20 seconds returns `None` — on any state whose cooldown
timer matches, no matter how the buffers changed in between. -/
theorem make_decision_cooldown_noop (s : DMState) (now : ℚ)
    (hcd : s.decision_cooldown = 20) :
    ((now - s.last_decision_time < 20 ∨ s.stress_buffer.length < 5) →
      make_decision s now = (none, s)) ∧
    (∀ r s', make_decision s now = (some r, s') →
      ∀ (s'' : DMState) (now' : ℚ),
        s''.last_decision_time = s'.last_decision_time →
        s''.decision_cooldown = 20 → now' - now < 20 →
        make_decision s'' now' = (none, s'')) := by
  constructor
  · intro h
    simp only [make_decision, hcd]
    split_ifs with g1 g2
    · rfl
    · rfl
    · rcases h with h | h
      · exact absurd h g1
      · exact absurd h g2
  · intro r s' hmk s'' now' hlast hcd'' hlt
    have hlast' : s'.last_decision_time = now := by
      simp only [make_decision] at hmk
      split_ifs at hmk with g1 g2
      · simp at hmk
      · simp at hmk
      · cases henv : environment_map (winner (decisionScore s)) with
        | none => rw [henv] at hmk; simp at hmk
        | some env =>
          rw [henv] at hmk
          have := congrArg Prod.snd hmk
          simp at this
          rw [← this]
    simp only [make_decision, hcd'']
    rw [if_pos]
    rw [hlast, hlast']
    exact hlt

/-- Witness for `make_decision_cooldown_noop`: on the freshly initialised
model (cooldown timer 0, empty buffers) a call at time 5 is inside the
cooldown window and is a no-op. -/
theorem make_decision_cooldown_noop_witness :
    make_decision initialDMState 5 = (none, initialDMState) :=
  (make_decision_cooldown_noop initialDMState 5 (by norm_num [initialDMState])).1
    (Or.inl (by norm_num [initialDMState]))

lemma winner_spec (f : String → ℤ) :
    winner f ∈ modePriority ∧
    (∀ m ∈ modePriority, f m ≤ f (winner f)) ∧
    (∀ m ∈ modePriority, f m = f (winner f) →
      priorityIndex (winner f) ≤ priorityIndex m) := by
  unfold winner pyMax
  simp only [List.foldl]
  split_ifs <;>
    refine ⟨by decide, fun m hm => ?_, fun m hm h => ?_⟩ <;>
    fin_cases hm <;>
    first
      | decide
      | linarith

/-- All five candidate modes have an `environment_map` entry. -/
lemma environment_map_total (m : String) (hm : m ∈ modePriority) :
    ∃ env, environment_map m = some env := by
  simp only [modePriority, List.mem_cons, List.not_mem_nil, or_false] at hm
  rcases hm with h | h | h | h | h <;> rw [h] <;> exact ⟨_, rfl⟩

/-- Claim C5: with at least 5 buffered samples and the cooldown elapsed,
`make_decision` accepts and the winning mode is uniquely determined by the
buffer contents: it is a mode of maximal additive score, ties are broken by
the fixed dict insertion order `calming_cool, calming_warm, energizing,
neutral_comfort, deep_relax` (first-encountered maximum wins), and a second
run on identical buffers — regardless of its clock or timer values —
returns the same decision. -/
theorem make_decision_deterministic_tiebreak (s s' : DMState) (now now' : ℚ)
    (h1 : ¬ now - s.last_decision_time < s.decision_cooldown)
    (h2 : 5 ≤ s.stress_buffer.length)
    (h1' : ¬ now' - s'.last_decision_time < s'.decision_cooldown)
    (hb1 : s'.temperature_buffer = s.temperature_buffer)
    (hb2 : s'.humidity_buffer = s.humidity_buffer)
    (hb3 : s'.air_quality_buffer = s.air_quality_buffer)
    (hb4 : s'.heart_rate_buffer = s.heart_rate_buffer)
    (hb5 : s'.stress_buffer = s.stress_buffer)
    (hb6 : s'.emotion_buffer = s.emotion_buffer) :
    ∃ env,
      (make_decision s now).1 = some (winner (decisionScore s), env) ∧
      winner (decisionScore s) ∈ modePriority ∧
      (∀ m ∈ modePriority,
        decisionScore s m ≤ decisionScore s (winner (decisionScore s))) ∧
      (∀ m ∈ modePriority,
        decisionScore s m = decisionScore s (winner (decisionScore s)) →
        priorityIndex (winner (decisionScore s)) ≤ priorityIndex m) ∧
      (make_decision s' now').1 = some (winner (decisionScore s), env) := by
  obtain ⟨hmem, hmax, htie⟩ := winner_spec (decisionScore s)
  obtain ⟨env, henv⟩ := environment_map_total _ hmem
  have hds : decisionScore s' = decisionScore s := by
    funext m
    simp only [decisionScore, hb1, hb2, hb3, hb4, hb5, hb6]
  have hlen : ¬ s.stress_buffer.length < 5 := by omega
  have hlen' : ¬ s'.stress_buffer.length < 5 := by rw [hb5]; omega
  refine ⟨env, ?_, hmem, hmax, htie, ?_⟩
  · simp only [make_decision]
    rw [if_neg h1, if_neg hlen, henv]
  · simp only [make_decision]
    rw [if_neg h1', if_neg hlen', hds, henv]

/-- Concrete buffer state for the C5 witness: five stress samples, three
emotions, cooldown elapsed at time 25. -/
def c5State : DMState :=
  { initialDMState with
    temperature_buffer := [22, 23, 24, 27, 28]
    humidity_buffer := [50, 50, 50, 50, 50]
    air_quality_buffer := [60, 60, 60, 60, 60]
    heart_rate_buffer := [80, 85, 90, 95, 99]
    stress_buffer := [55, 60, 62, 64, 66]
    emotion_buffer := ["sad", "sad", "neutral", "sad", "neutral"] }

/-- Witness for `make_decision_deterministic_tiebreak` on `c5State`. -/
theorem make_decision_deterministic_tiebreak_witness :
    ∃ env,
      (make_decision c5State 25).1 = some (winner (decisionScore c5State), env) ∧
      winner (decisionScore c5State) ∈ modePriority ∧
      (∀ m ∈ modePriority,
        decisionScore c5State m ≤
          decisionScore c5State (winner (decisionScore c5State))) ∧
      (∀ m ∈ modePriority,
        decisionScore c5State m =
          decisionScore c5State (winner (decisionScore c5State)) →
        priorityIndex (winner (decisionScore c5State)) ≤ priorityIndex m) ∧
      (make_decision c5State 25).1 =
        some (winner (decisionScore c5State), env) :=
  make_decision_deterministic_tiebreak c5State c5State 25 25
    (by norm_num [c5State, initialDMState]) (by norm_num [c5State, initialDMState])
    (by norm_num [c5State, initialDMState]) rfl rfl rfl rfl rfl rfl

/-! ## personalization_model.py — `PersonalizationModel`

The session-learning preference update (`learn_from_session`, lines
103-141) and the comfort score (`get_comfort_score`, lines 215-233).
One session feedback entry keeps the fields the learning step reads
(emotion, the recorded environment, the improved flag).  The stored
per-emotion preference dict becomes a total map `String → Preference`
(the Python dict holds exactly the seven emotion keys the vision model
produces).  The comfort-zone recomputation, history append, session
counter and file persistence of `learn_from_session` touch no preference
and are orthogonal to the properties below. -/

/-- One stored per-emotion preference
(`user_profile['preferences'][emotion]`). -/
structure Preference where
  color : String
  brightness : ℤ
  audio : String
  volume : ℤ
deriving DecidableEq

/-- The default preference table from `PersonalizationModel.__init__`. -/
def defaultPreferences : String → Preference
  | "happy" => ⟨"cabin_evening", 180, "uplifting_ambient", 40⟩
  | "neutral" => ⟨"cabin_day", 130, "ambient_soft", 30⟩
  | "sad" => ⟨"warming", 190, "fireplace_crackling", 45⟩
  | "angry" => ⟨"calming_blue", 200, "ocean_waves", 50⟩
  | "fear" => ⟨"calming_soft", 220, "meditation_calm", 55⟩
  | "surprise" => ⟨"neutral_warm", 160, "ambient_soft", 35⟩
  | _ => ⟨"nature_green", 150, "ambient_soft", 30⟩

/-- One `record_feedback` entry, restricted to the fields the learning
step reads. -/
structure FeedbackEntry where
  emotion : String
  color_scheme : String
  brightness : ℤ
  audio : String
  volume : ℤ
  comfort_improved : Bool
deriving DecidableEq

/-- The comfort-improved entries of one emotion group
(`emotion_groups[e]` built from `self.session_data`). -/
def group_for (session_data : List FeedbackEntry) (e : String) :
    List FeedbackEntry :=
  session_data.filter (fun x => x.comfort_improved && x.emotion == e)

/-- `max(set(values), key=values.count)`: a value of maximal count.
CPython iterates the set in hash order; the model fixes first-occurrence
order, which agrees with the code whenever the maximum is unique. -/
def mostCommon (l : List String) : String :=
  match dedupKeys l with
  | [] => ""
  | k :: ks => pyMax (fun s => (l.count s : ℤ)) k ks

/-- `PersonalizationModel.learn_from_session`, viewed as the map it leaves
in `user_profile['preferences']`: a no-op below 5 session entries;
otherwise each emotion whose comfort-improved group has at least 2 entries
gets the modal color/audio of the group and a 70/30 blend of old and group
mean for brightness/volume, truncated by Python `int()`; every other key
is unchanged. -/
def learn_from_session (prefs : String → Preference)
    (session_data : List FeedbackEntry) : String → Preference := fun e =>
  if session_data.length < 5 then prefs e
  else
    let g := group_for session_data e
    if g.length < 2 then prefs e
    else
      let avg_brightness := listMean (g.map (fun x => (x.brightness : ℚ)))
      let avg_volume := listMean (g.map (fun x => (x.volume : ℚ)))
      let old_pref := prefs e
      { color := mostCommon (g.map (fun x => x.color_scheme))
      , brightness := pyInt (7/10 * (old_pref.brightness : ℚ) + 3/10 * avg_brightness)
      , audio := mostCommon (g.map (fun x => x.audio))
      , volume := pyInt (7/10 * (old_pref.volume : ℚ) + 3/10 * avg_volume) }

/-- Concrete session for the C4 counterexample: five entries, of which
exactly two are comfort-improved and grouped under `"neutral"`, with
brightness values 180 and 185. -/
def c4Session : List FeedbackEntry :=
  [ ⟨"neutral", "cabin_day", 180, "ambient_soft", 30, true⟩
  , ⟨"neutral", "cabin_day", 185, "ambient_soft", 40, true⟩
  , ⟨"happy", "cabin_evening", 180, "uplifting_ambient", 40, false⟩
  , ⟨"happy", "cabin_evening", 180, "uplifting_ambient", 40, false⟩
  , ⟨"sad", "warming", 190, "fireplace_crackling", 45, false⟩ ]

/-- Claim C4, counterexample: with old brightness 130 and a 2-entry group
with brightness mean 182.5, the blend `0.7*130 + 0.3*182.5 = 145.75` is
truncated by Python `int()` to 145, while the claimed `round` gives 146. -/
theorem learn_blend_counterexample :
    (learn_from_session defaultPreferences c4Session "neutral").brightness = 145 ∧
    round ((7 : ℚ)/10 * 130 + 3/10 * ((180 + 185)/2)) = 146 ∧
    (145 : ℤ) ≠ 146 := by
  have hg : group_for c4Session "neutral" =
      [⟨"neutral", "cabin_day", 180, "ambient_soft", 30, true⟩,
       ⟨"neutral", "cabin_day", 185, "ambient_soft", 40, true⟩] := by decide
  have hpref : defaultPreferences "neutral" =
      ⟨"cabin_day", 130, "ambient_soft", 30⟩ := rfl
  refine ⟨?_, ?_, by decide⟩
  · simp only [learn_from_session]
    rw [hg, hpref]
    norm_num [c4Session, listMean, pyInt]
  · rw [round_eq]
    norm_num

/-- Claim C4 (amended): for every emotion group with at least 2
comfort-improved entries processed by a `learn_from_session` run on at
least 5 session entries, the stored brightness and volume each become
`int(0.7*old + 0.3*groupMean)` — one truncated fraction
`(7*old*n + 3*sum)/(10*n)` over the group size `n` — and color and audio
become the group's modal values. -/
theorem learn_blend_amended (prefs : String → Preference)
    (sd : List FeedbackEntry) (e : String)
    (h5 : 5 ≤ sd.length) (h2 : 2 ≤ (group_for sd e).length) :
    (learn_from_session prefs sd e).brightness =
      pyInt ((7 * ((prefs e).brightness : ℚ) * (group_for sd e).length +
        3 * ((group_for sd e).map (fun x => (x.brightness : ℚ))).sum) /
        (10 * (group_for sd e).length)) ∧
    (learn_from_session prefs sd e).volume =
      pyInt ((7 * ((prefs e).volume : ℚ) * (group_for sd e).length +
        3 * ((group_for sd e).map (fun x => (x.volume : ℚ))).sum) /
        (10 * (group_for sd e).length)) ∧
    (learn_from_session prefs sd e).color =
      mostCommon ((group_for sd e).map (fun x => x.color_scheme)) ∧
    (learn_from_session prefs sd e).audio =
      mostCommon ((group_for sd e).map (fun x => x.audio)) := by
  have hn : ((group_for sd e).length : ℚ) ≠ 0 := by
    have : 0 < (group_for sd e).length := by omega
    exact_mod_cast this.ne'
  have h5' : ¬ sd.length < 5 := by omega
  have h2' : ¬ (group_for sd e).length < 2 := by omega
  simp only [learn_from_session, if_neg h5', if_neg h2']
  refine ⟨?_, ?_, by trivial, by trivial⟩
  · congr 1
    rw [listMean, List.length_map]
    field_simp
    ring
  · congr 1
    rw [listMean, List.length_map]
    field_simp
    ring

/-- Witness for `learn_blend_amended` on the concrete session `c4Session`
and the default preference table. -/
theorem learn_blend_amended_witness :
    (learn_from_session defaultPreferences c4Session "neutral").brightness =
      pyInt ((7 * ((defaultPreferences "neutral").brightness : ℚ) *
        (group_for c4Session "neutral").length +
        3 * ((group_for c4Session "neutral").map
          (fun x => (x.brightness : ℚ))).sum) /
        (10 * (group_for c4Session "neutral").length)) ∧
    (learn_from_session defaultPreferences c4Session "neutral").volume =
      pyInt ((7 * ((defaultPreferences "neutral").volume : ℚ) *
        (group_for c4Session "neutral").length +
        3 * ((group_for c4Session "neutral").map
          (fun x => (x.volume : ℚ))).sum) /
        (10 * (group_for c4Session "neutral").length)) ∧
    (learn_from_session defaultPreferences c4Session "neutral").color =
      mostCommon ((group_for c4Session "neutral").map
        (fun x => x.color_scheme)) ∧
    (learn_from_session defaultPreferences c4Session "neutral").audio =
      mostCommon ((group_for c4Session "neutral").map (fun x => x.audio)) :=
  learn_blend_amended defaultPreferences c4Session "neutral"
    (by decide) (by decide)

/-- The comfort-zone parameters `get_comfort_score` reads
(`user_profile['comfort_zones']`). -/
structure ComfortZones where
  temp_preferred : ℚ
  hum_preferred : ℚ
  stress_comfortable_max : ℚ
deriving DecidableEq

/-- `PersonalizationModel.get_comfort_score`: start at 100, subtract the
weighted temperature and humidity deviations, subtract half the stress
excess when above the comfortable maximum, clamp to `[0, 100]`. -/
def get_comfort_score (cz : ComfortZones) (sensor_data : SensorData)
    (watch_data : WatchData) : ℚ :=
  let score : ℚ := 100
  let score := score - |sensor_data.temperature - cz.temp_preferred| * 5
  let score := score - |sensor_data.humidity - cz.hum_preferred| * 2
  let score :=
    if watch_data.stress_level > cz.stress_comfortable_max then
      score - (watch_data.stress_level - cz.stress_comfortable_max) * (1/2)
    else score
  max 0 (min 100 score)

/-- The closed-form comfort score the spec states, written from the
spec's words for comparison with `get_comfort_score`. -/
def specComfortScore (cz : ComfortZones) (sensor_data : SensorData)
    (watch_data : WatchData) : ℚ :=
  max 0 (min 100
    (100 - 5 * |sensor_data.temperature - cz.temp_preferred|
      - 2 * |sensor_data.humidity - cz.hum_preferred|
      - (1/2) * max 0 (watch_data.stress_level - cz.stress_comfortable_max)))

/-- Claim C6: for every input and every comfort-zone setting,
`get_comfort_score` returns exactly
`max(0, min(100, 100 - 5|Δt| - 2|Δh| - 0.5·max(0, stress - max)))`,
and the result always lies in `[0, 100]`. -/
theorem comfort_score_formula (cz : ComfortZones) (sd : SensorData)
    (wd : WatchData) :
    get_comfort_score cz sd wd = specComfortScore cz sd wd ∧
    0 ≤ get_comfort_score cz sd wd ∧ get_comfort_score cz sd wd ≤ 100 := by
  have hform : get_comfort_score cz sd wd = specComfortScore cz sd wd := by
    unfold get_comfort_score specComfortScore
    by_cases h : wd.stress_level > cz.stress_comfortable_max
    all_goals simp only [h, if_true, if_false, reduceIte]
    · rw [max_eq_right (by linarith : (0:ℚ) ≤ wd.stress_level - cz.stress_comfortable_max)]
      ring_nf
    · rw [max_eq_left (by linarith : wd.stress_level - cz.stress_comfortable_max ≤ 0)]
      ring_nf
  refine ⟨hform, ?_, ?_⟩
  · rw [hform]; exact le_max_left 0 _
  · rw [hform]
    exact max_le (by norm_num) (min_le_left _ _)

/-! ## actuators.py — `ActuatorSystem`

State-passing embedding of the actuator object.  LED and mpg123 side
effects are reflected in the tracked fields: `light_color`/`light_mode`/
`audio_status` mirror `self.current_state`, `playing_file` records the
file handed to mpg123, `strip` records whether the NeoPixel strip
initialised, and `threads_started` counts `threading.Thread(...).start()`
calls of the emergency strobe loop. -/

/-- State of `ActuatorSystem`. -/
structure ActuatorState where
  light_color : String
  light_mode : String
  audio_status : String
  emergency_active_reported : Bool
  emergency_active : Bool
  threads_started : ℕ
  current_color_scheme : Option String
  current_brightness : Option ℤ
  current_audio : Option String
  current_volume : Option ℤ
  playing_file : Option String
  strip : Bool
deriving DecidableEq

/-- `ActuatorSystem.__init__` (with the strip present). -/
def initialActuatorState : ActuatorState :=
  { light_color := "OFF", light_mode := "IDLE", audio_status := "SILENT"
  , emergency_active_reported := false, emergency_active := false
  , threads_started := 0
  , current_color_scheme := none, current_brightness := none
  , current_audio := none, current_volume := none
  , playing_file := none, strip := true }

/-- `ActuatorSystem._color_wipe`: no-op without a strip, else paint and
record the color name. -/
def color_wipe (name : String) (s : ActuatorState) : ActuatorState :=
  if !s.strip then s else { s with light_color := name }

/-- `ActuatorSystem.set_mood_lighting`. -/
def set_mood_lighting (mode : String) (s : ActuatorState) : ActuatorState :=
  if s.emergency_active then s
  else
    let s := { s with light_mode := mode }
    if mode = "CALM" then color_wipe "COOL BLUE" s
    else if mode = "WARM" then color_wipe "WARM AMBER" s
    else if mode = "ALERT" then color_wipe "WARNING ORANGE" s
    else color_wipe "OFF" s

/-- The `self.cabin_colors` RGB table. -/
def cabin_colors : String → Option (ℤ × ℤ × ℤ)
  | "cabin_day" => some (255, 235, 200)
  | "cabin_evening" => some (255, 180, 120)
  | "cabin_night" => some (180, 140, 100)
  | "calming_blue" => some (80, 180, 255)
  | "calming_soft" => some (150, 200, 255)
  | "calming_purple" => some (160, 120, 255)
  | "nature_green" => some (100, 255, 150)
  | "ocean_blue" => some (80, 200, 240)
  | "forest_green" => some (80, 180, 120)
  | "cooling" => some (100, 200, 255)
  | "cooling_intense" => some (50, 150, 255)
  | "warming" => some (255, 160, 80)
  | "warming_intense" => some (255, 120, 50)
  | "neutral_warm" => some (255, 220, 180)
  | "neutral_cool" => some (200, 220, 255)
  | "energizing_yellow" => some (255, 230, 100)
  | "sunset_orange" => some (255, 140, 60)
  | "soft_pink" => some (255, 180, 200)
  | "deep_red" => some (255, 80, 80)
  | _ => none

/-- `ActuatorSystem.set_cabin_lighting`: dropped during an emergency;
skipped when already showing the requested scheme and brightness; unknown
schemes are substituted with `'cabin_day'`; without a strip the early
`return` keeps all tracked state unchanged. -/
def set_cabin_lighting (color_scheme : String) (brightness : ℤ)
    (s : ActuatorState) : ActuatorState :=
  if s.emergency_active then s
  else if s.current_color_scheme = some color_scheme ∧
      s.current_brightness = some brightness then s
  else
    let scheme := if (cabin_colors color_scheme).isSome then color_scheme
      else "cabin_day"
    match cabin_colors scheme with
    | none => s
    | some rgb =>
      if !s.strip then s
      else
        let r := pyInt ((rgb.1 : ℚ) * ((brightness : ℚ) / 255))
        let g := pyInt ((rgb.2.1 : ℚ) * ((brightness : ℚ) / 255))
        let b := pyInt ((rgb.2.2 : ℚ) * ((brightness : ℚ) / 255))
        { s with
          light_mode := scheme
          light_color := "RGB(" ++ toString r ++ "," ++ toString g ++ ","
            ++ toString b ++ ")"
          current_color_scheme := some scheme
          current_brightness := some brightness }

/-- `BEEP_FILE` and `CALM_FILE`. -/
def BEEP_FILE : String := "data/alert.mp3"

/-- Default calm audio file. -/
def CALM_FILE : String := "data/calm.mp3"

/-- The `self.sound_profiles` table. -/
def sound_profiles : String → Option String
  | "calming_deep" => some "data/meditation.mp3"
  | "nature_calm" => some "data/ocean_waves.mp3"
  | "ambient_soft" => some "data/calm.mp3"
  | "white_noise_cooling" => some "data/ocean_waves.mp3"
  | "alert" => some BEEP_FILE
  | "ocean_waves" => some "data/ocean_waves.mp3"
  | "fireplace_crackling" => some "data/fireplace.mp3"
  | "uplifting_ambient" => some "data/uplifting.mp3"
  | "meditation_calm" => some "data/meditation.mp3"
  | _ => none

/-- `ActuatorSystem.play_sound`: skipped when the same sound and volume
are already playing; unknown profile names (and missing files) fall back
to `CALM_FILE`; `os.path.exists` is passed in as `file_exists`. -/
def play_sound (sound_type : String) (volume : ℤ)
    (file_exists : String → Bool) (s : ActuatorState) : ActuatorState :=
  if s.current_audio = some sound_type ∧ s.current_volume = some volume then s
  else
    let audio_file :=
      match sound_profiles sound_type with
      | some f => f
      | none =>
        if sound_type = "BEEP" then BEEP_FILE
        else if sound_type = "CALM" then CALM_FILE
        else CALM_FILE
    let audio_file := if file_exists audio_file then audio_file else CALM_FILE
    { s with
      audio_status := "PLAYING " ++ sound_type
      playing_file := some audio_file
      current_audio := some sound_type
      current_volume := some volume }

/-- `ActuatorSystem.activate_emergency_protocol`: activation starts the
strobe thread only on the inactive-to-active edge; deactivation clears the
flags and then re-applies the WARM mood lighting. -/
def activate_emergency_protocol (active : Bool) (s : ActuatorState) :
    ActuatorState :=
  if active then
    if !s.emergency_active then
      { s with
        emergency_active := true
        emergency_active_reported := true
        light_mode := "EMERGENCY"
        threads_started := s.threads_started + 1 }
    else s
  else
    set_mood_lighting "WARM"
      { s with emergency_active := false, emergency_active_reported := false }

/-- Claim C7, counterexample: deactivating while not active is NOT a
no-op — from an inactive state showing CALM mood lighting,
`activate_emergency_protocol(False)` switches the light mode to WARM. -/
theorem emergency_deactivate_counterexample :
    activate_emergency_protocol false
        { initialActuatorState with light_mode := "CALM" } ≠
      { initialActuatorState with light_mode := "CALM" } ∧
    (activate_emergency_protocol false
        { initialActuatorState with light_mode := "CALM" }).light_mode =
      "WARM" := by
  constructor
  · decide
  · decide

/-- Claim C7 (amended): requesting activation while the emergency is
already active changes nothing (in particular starts no second strobe
thread); each inactive-to-active edge starts exactly one strobe thread;
and deactivating while not active leaves the emergency flags and strobe
thread count unchanged but is not a hardware no-op: it re-applies the
WARM mood lighting. -/
theorem emergency_activation_idempotent (s : ActuatorState) :
    (s.emergency_active = true → activate_emergency_protocol true s = s) ∧
    (s.emergency_active = false →
      (activate_emergency_protocol true s).threads_started =
        s.threads_started + 1 ∧
      activate_emergency_protocol true (activate_emergency_protocol true s) =
        activate_emergency_protocol true s) ∧
    (s.emergency_active = false →
      (activate_emergency_protocol false s).emergency_active = false ∧
      (activate_emergency_protocol false s).threads_started =
        s.threads_started ∧
      (activate_emergency_protocol false s).light_mode = "WARM") := by
  refine ⟨fun h => ?_, fun h => ⟨?_, ?_⟩, fun h => ⟨?_, ?_, ?_⟩⟩
  · simp [activate_emergency_protocol, h]
  · simp [activate_emergency_protocol, h]
  · simp [activate_emergency_protocol, h]
  · cases hs : s.strip <;>
      simp [activate_emergency_protocol, set_mood_lighting, h, color_wipe, hs]
  · cases hs : s.strip <;>
      simp [activate_emergency_protocol, set_mood_lighting, h, color_wipe, hs]
  · cases hs : s.strip <;>
      simp [activate_emergency_protocol, set_mood_lighting, h, color_wipe, hs]

/-- Witness for `emergency_activation_idempotent` on the initial
(inactive) actuator state. -/
theorem emergency_activation_idempotent_witness :
    (activate_emergency_protocol true initialActuatorState).threads_started =
      initialActuatorState.threads_started + 1 ∧
    activate_emergency_protocol true
        (activate_emergency_protocol true initialActuatorState) =
      activate_emergency_protocol true initialActuatorState :=
  (emergency_activation_idempotent initialActuatorState).2.1 rfl

/-- Claim C10: while `emergency_active` is set, `set_cabin_lighting` and
`set_mood_lighting` return the state entirely unchanged — no LED output,
no tracked scheme/brightness, no reported hardware state. -/
theorem lighting_dropped_during_emergency (s : ActuatorState)
    (h : s.emergency_active = true) (scheme : String) (brightness : ℤ)
    (mode : String) :
    set_cabin_lighting scheme brightness s = s ∧
    set_mood_lighting mode s = s := by
  constructor
  · simp [set_cabin_lighting, h]
  · simp [set_mood_lighting, h]

/-- Witness for `lighting_dropped_during_emergency` on an active-emergency
state. -/
theorem lighting_dropped_during_emergency_witness :
    set_cabin_lighting "calming_blue" 200
        { initialActuatorState with emergency_active := true } =
      { initialActuatorState with emergency_active := true } ∧
    set_mood_lighting "CALM"
        { initialActuatorState with emergency_active := true } =
      { initialActuatorState with emergency_active := true } :=
  lighting_dropped_during_emergency
    { initialActuatorState with emergency_active := true } rfl
    "calming_blue" 200 "CALM"

/-- Claim C9: an unknown color scheme is substituted with `'cabin_day'`
and applied (the call proceeds, recording `cabin_day` as the current
scheme); an unknown audio profile (not `BEEP`/`CALM` either) is
substituted with the default calm audio file and played. -/
theorem unknown_scheme_fallback (s : ActuatorState) (scheme : String)
    (brightness : ℤ) (sound_type : String) (volume : ℤ)
    (file_exists : String → Bool)
    (hunknown : cabin_colors scheme = none)
    (hemg : s.emergency_active = false)
    (hskip : ¬ (s.current_color_scheme = some scheme ∧
      s.current_brightness = some brightness))
    (hstrip : s.strip = true)
    (hsound : sound_profiles sound_type = none)
    (hbeep : sound_type ≠ "BEEP") (hcalm : sound_type ≠ "CALM")
    (hskipa : ¬ (s.current_audio = some sound_type ∧
      s.current_volume = some volume)) :
    (set_cabin_lighting scheme brightness s).current_color_scheme =
      some "cabin_day" ∧
    (set_cabin_lighting scheme brightness s).light_mode = "cabin_day" ∧
    (play_sound sound_type volume file_exists s).playing_file =
      some CALM_FILE ∧
    (play_sound sound_type volume file_exists s).audio_status =
      "PLAYING " ++ sound_type := by
  have hl : set_cabin_lighting scheme brightness s =
      { s with
        light_mode := "cabin_day"
        light_color := "RGB(" ++ toString (pyInt ((255 : ℚ) * ((brightness : ℚ) / 255)))
          ++ "," ++ toString (pyInt ((235 : ℚ) * ((brightness : ℚ) / 255)))
          ++ "," ++ toString (pyInt ((200 : ℚ) * ((brightness : ℚ) / 255))) ++ ")"
        current_color_scheme := some "cabin_day"
        current_brightness := some brightness } := by
    rw [set_cabin_lighting, if_neg (by simp [hemg]), if_neg hskip]
    simp only [hunknown, Option.isSome_none, Bool.false_eq_true, if_false]
    rw [show cabin_colors "cabin_day" = some (255, 235, 200) from rfl]
    simp [hstrip]
  have hp : play_sound sound_type volume file_exists s =
      { s with
        audio_status := "PLAYING " ++ sound_type
        playing_file := some CALM_FILE
        current_audio := some sound_type
        current_volume := some volume } := by
    rw [play_sound, if_neg hskipa]
    simp only [hsound, if_neg hbeep, if_neg hcalm]
    cases hfe : file_exists CALM_FILE <;> simp [hfe]
  rw [hl, hp]
  exact ⟨rfl, rfl, rfl, rfl⟩

/-- Witness for `unknown_scheme_fallback`: requesting the nonexistent
scheme `'disco'` and sound `'rock'` on the initial state. -/
theorem unknown_scheme_fallback_witness :
    (set_cabin_lighting "disco" 150 initialActuatorState).current_color_scheme =
      some "cabin_day" ∧
    (set_cabin_lighting "disco" 150 initialActuatorState).light_mode =
      "cabin_day" ∧
    (play_sound "rock" 60 (fun _ => false) initialActuatorState).playing_file =
      some CALM_FILE ∧
    (play_sound "rock" 60 (fun _ => false) initialActuatorState).audio_status =
      "PLAYING " ++ "rock" :=
  unknown_scheme_fallback initialActuatorState "disco" 150 "rock" 60
    (fun _ => false) rfl rfl (by simp [initialActuatorState]) rfl rfl
    (by decide) (by decide) (by simp [initialActuatorState])

/-! ## alert.py — `RealTimeAlertSystem`

Event-machine embedding of the alert system.  The asynchronous handlers —
an MQTT drowsiness message (`on_mqtt_message`), one monitoring-loop
iteration (`monitoring_loop` body), the ENTER acknowledgment
(`wait_for_acknowledgment` followed by `activate_anti_fatigue_mode`), and
`stop` — become atomic transitions on the alert state; a run is a fold of
a list of such events. -/

/-- One decoded drowsiness payload (`self.drowsiness_data`). -/
structure DrowsinessData where
  blinks : ℤ
  microsleeps : ℚ
  yawns : ℤ
  yawn_duration : ℚ
  alert : String
deriving DecidableEq

/-- `self.drowsiness_data` initial value. -/
def initialDrowsiness : DrowsinessData :=
  { blinks := 0, microsleeps := 0, yawns := 0, yawn_duration := 0, alert := "" }

/-- State of `RealTimeAlertSystem` (the fields the alert life cycle
touches, plus the actuator emergency flag it drives). -/
structure AlertState where
  alert_active : Bool
  alert_acknowledged : Bool
  current_alert_type : Option String
  normal_mode_active : Bool
  running : Bool
  drowsiness : DrowsinessData
  actuator_emergency : Bool
deriving DecidableEq

/-- `RealTimeAlertSystem.__init__` state. -/
def initialAlertState : AlertState :=
  { alert_active := false, alert_acknowledged := false
  , current_alert_type := none, normal_mode_active := true
  , running := false, drowsiness := initialDrowsiness
  , actuator_emergency := false }

/-- The asynchronous events of the alert system. -/
inductive AlertEvent where
  | mqtt (payload : DrowsinessData)
  | tick
  | acknowledge
  | stop
deriving DecidableEq

/-- `RealTimeAlertSystem.trigger_alert`: mark the alert active and
unacknowledged, leave normal mode, activate the actuator emergency
protocol. -/
def trigger_alert (alert_type : String) (s : AlertState) : AlertState :=
  { s with
    alert_active := true
    alert_acknowledged := false
    current_alert_type := some alert_type
    normal_mode_active := false
    actuator_emergency := true }

/-- One event step of `RealTimeAlertSystem`:

* `mqtt p` — `on_mqtt_message`: store the payload; trigger an alert only
  when `p.alert` is `'prolonged_microsleep'` AND no alert is active;
* `tick` — one `monitoring_loop` iteration: reads and prints only, the
  alert state is untouched;
* `acknowledge` — `wait_for_acknowledgment` receives ENTER, then
  `activate_anti_fatigue_mode` clears the alert, stops the actuator
  emergency and eventually returns to normal mode;
* `stop` — `RealTimeAlertSystem.stop`. -/
def alert_step (e : AlertEvent) (s : AlertState) : AlertState :=
  match e with
  | AlertEvent.mqtt p =>
    let s' := { s with drowsiness := p }
    if p.alert = "prolonged_microsleep" ∧ s.alert_active = false then
      trigger_alert p.alert s'
    else s'
  | AlertEvent.tick => s
  | AlertEvent.acknowledge =>
    { s with
      alert_acknowledged := true
      alert_active := false
      current_alert_type := none
      actuator_emergency := false
      normal_mode_active := true }
  | AlertEvent.stop =>
    { s with running := false, alert_active := false, actuator_emergency := false }

/-- A run of the alert system over a list of events. -/
def alert_run (evs : List AlertEvent) (s : AlertState) : AlertState :=
  evs.foldl (fun st e => alert_step e st) s

/-- Claim C8: an active alert never self-clears — across any sequence of
monitoring iterations and incoming drowsiness messages (no acknowledgment
or stop event), `alert_active` stays true; and a new trigger arriving
while an alert is active only stores the payload, leaving every alert
field unchanged. -/
theorem alert_no_self_clear (s : AlertState)
    (hact : s.alert_active = true) :
    (∀ evs : List AlertEvent,
      (∀ e ∈ evs, e ≠ AlertEvent.acknowledge ∧ e ≠ AlertEvent.stop) →
      (alert_run evs s).alert_active = true) ∧
    (∀ p : DrowsinessData,
      alert_step (AlertEvent.mqtt p) s = { s with drowsiness := p }) := by
  constructor
  · have key : ∀ (evs : List AlertEvent) (st : AlertState),
        st.alert_active = true →
        (∀ e ∈ evs, e ≠ AlertEvent.acknowledge ∧ e ≠ AlertEvent.stop) →
        (alert_run evs st).alert_active = true := by
      intro evs
      induction evs with
      | nil => intro st h _; exact h
      | cons e rest ih =>
        intro st h hfree
        have hstep : (alert_step e st).alert_active = true := by
          cases e with
          | mqtt p =>
            simp only [alert_step]
            split_ifs with hc
            · rfl
            · exact h
          | tick => exact h
          | acknowledge => exact absurd rfl (hfree _ (by simp)).1
          | stop => exact absurd rfl (hfree _ (by simp)).2
        exact ih (alert_step e st) hstep
          (fun e' he' => hfree e' (List.mem_cons_of_mem _ he'))
    exact fun evs hfree => key evs s hact hfree
  · intro p
    simp only [alert_step]
    rw [if_neg]
    simp [hact]

/-- Witness for `alert_no_self_clear`: an alert triggered on the initial
state stays active across a tick, a fresh (ignored) trigger message and
another tick. -/
theorem alert_no_self_clear_witness :
    (alert_run
        [AlertEvent.tick,
         AlertEvent.mqtt { initialDrowsiness with alert := "prolonged_microsleep" },
         AlertEvent.tick]
        (trigger_alert "prolonged_microsleep" initialAlertState)).alert_active =
      true :=
  (alert_no_self_clear (trigger_alert "prolonged_microsleep" initialAlertState)
      rfl).1
    [AlertEvent.tick,
     AlertEvent.mqtt { initialDrowsiness with alert := "prolonged_microsleep" },
     AlertEvent.tick]
    (by intro e he; fin_cases he <;> exact ⟨by simp, by simp⟩)

end ComfortSync
